import Mathlib

/-!
Shallow embedding of the storage-backend layer of a TinyUSB MSC device
responder (tusb_msc_storage.c).  Machine integers are modelled as `Nat`
with explicit reduction modulo `2 ^ 32` at the points where the C code
casts or where its checked arithmetic detects wrap-around; the external
wear-levelling and SD/MMC collaborators are modelled as abstract
functions carried in an environment record, and every embedded operation
returns, next to its `esp_err_t` result, the list of backend calls it
performed, so that "the backend is never invoked" is a statement about
that list.
-/

namespace TusbMscStorage

/-- Modulus of the 32-bit unsigned types (`uint32_t`, `size_t` on the
32-bit target). -/
def U32_MOD : Nat := 2 ^ 32

/-- Modulus of `uint16_t`, used by the capacity callback's block-size
field. -/
def U16_MOD : Nat := 2 ^ 16

/-- Least value that no longer fits in a signed 32-bit `int32_t`. -/
def INT32_HALF : Nat := 2 ^ 31

/-- Interpretation of a `uint32_t` bit pattern as the signed `int32_t`
returned by the READ10/WRITE10 callbacks. -/
def toInt32 (n : Nat) : Int :=
  if n % U32_MOD < INT32_HALF then ((n % U32_MOD : Nat) : Int)
  else ((n % U32_MOD : Nat) : Int) - (U32_MOD : Int)

/-- The `esp_err_t` values the file distinguishes: `ESP_OK`,
`ESP_ERR_INVALID_SIZE`, `ESP_ERR_INVALID_ARG`, `ESP_ERR_NO_MEM`, and an
arbitrary other backend error code. -/
inductive EspErr where
  | ok
  | invalidSize
  | invalidArg
  | noMem
  | fail (code : Nat)
deriving DecidableEq, Repr

/-- One call into an external storage collaborator, recorded with the
arguments the C code passes (buffer pointers are not modelled). -/
inductive BackendCall where
  | wlRead (addr size : Nat)
  | wlEraseRange (addr size : Nat)
  | wlWrite (addr size : Nat)
  | sdmmcRead (start_sector sector_count : Nat)
  | sdmmcWrite (start_sector sector_count : Nat)
deriving DecidableEq, Repr

/-- The wear-levelling collaborator behind the flash backend:
`wl_sector_size`, `wl_size` (both `size_t`), and the byte-addressed
`wl_read` / `wl_erase_range` / `wl_write` primitives, each taking an
address and a size and returning an `esp_err_t`. -/
structure FlashEnv where
  wl_sector_size : Nat
  wl_size : Nat
  wl_read : Nat → Nat → EspErr
  wl_erase_range : Nat → Nat → EspErr
  wl_write : Nat → Nat → EspErr

/-- The SD/MMC collaborator: the card's `csd.capacity` and
`csd.sector_size` descriptor fields and the sector-addressed
`sdmmc_read_sectors` / `sdmmc_write_sectors` primitives, each taking a
start sector and a sector count. -/
structure SdmmcEnv where
  csd_capacity : Nat
  csd_sector_size : Nat
  sdmmc_read_sectors : Nat → Nat → EspErr
  sdmmc_write_sectors : Nat → Nat → EspErr

/-- The backend bound into the storage handle at init time: exactly one
of the two collaborator environments (the union plus the capability
table of `tinyusb_msc_storage_handle_s`). -/
inductive StorageEnv where
  | spiflash (fe : FlashEnv)
  | sdmmc (se : SdmmcEnv)

/-- Embeds `_get_sector_count_spiflash`: zero when the wear-level layer
reports a zero sector size, otherwise `wl_size / size` cast to
`uint32_t`. -/
def get_sector_count_spiflash (fe : FlashEnv) : Nat :=
  if fe.wl_sector_size = 0 then 0
  else (fe.wl_size / fe.wl_sector_size) % U32_MOD

/-- Embeds `_get_sector_size_spiflash`: `wl_sector_size` cast to
`uint32_t`. -/
def get_sector_size_spiflash (fe : FlashEnv) : Nat :=
  fe.wl_sector_size % U32_MOD

/-- Embeds `_get_sector_count_sdmmc`: `csd.capacity` cast to
`uint32_t`. -/
def get_sector_count_sdmmc (se : SdmmcEnv) : Nat :=
  se.csd_capacity % U32_MOD

/-- Embeds `_get_sector_size_sdmmc`: `csd.sector_size` cast to
`uint32_t`. -/
def get_sector_size_sdmmc (se : SdmmcEnv) : Nat :=
  se.csd_sector_size % U32_MOD

/-- Embeds `_read_sector_spiflash`: checked `lba * sector_size`, then
checked `+ offset`; on either overflow returns `ESP_ERR_INVALID_SIZE`
without touching the backend, otherwise calls `wl_read` at the computed
address. -/
def read_sector_spiflash (fe : FlashEnv) (sector_size lba offset size : Nat) :
    EspErr × List BackendCall :=
  if U32_MOD ≤ lba * sector_size then (EspErr.invalidSize, [])
  else if U32_MOD ≤ lba * sector_size + offset then (EspErr.invalidSize, [])
  else (fe.wl_read (lba * sector_size + offset) size,
        [BackendCall.wlRead (lba * sector_size + offset) size])

/-- Embeds `_write_sector_spiflash`: `wl_erase_range` on the target byte
range first; a non-`ESP_OK` erase result is returned at once and
`wl_write` is not reached. -/
def write_sector_spiflash (fe : FlashEnv)
    (sector_size addr lba offset size : Nat) :
    EspErr × List BackendCall :=
  match fe.wl_erase_range addr size with
  | EspErr.ok =>
      (fe.wl_write addr size,
       [BackendCall.wlEraseRange addr size, BackendCall.wlWrite addr size])
  | e => (e, [BackendCall.wlEraseRange addr size])

/-- Embeds `_read_sector_sdmmc`: unconditionally asks the card for
`size / sector_size` sectors starting at `lba`; `offset` is an unused
parameter. -/
def read_sector_sdmmc (se : SdmmcEnv) (sector_size lba offset size : Nat) :
    EspErr × List BackendCall :=
  (se.sdmmc_read_sectors lba (size / sector_size),
   [BackendCall.sdmmcRead lba (size / sector_size)])

/-- Embeds `_write_sector_sdmmc`: unconditionally writes
`size / sector_size` sectors starting at `lba`; `addr` and `offset` are
unused parameters. -/
def write_sector_sdmmc (se : SdmmcEnv)
    (sector_size addr lba offset size : Nat) :
    EspErr × List BackendCall :=
  (se.sdmmc_write_sectors lba (size / sector_size),
   [BackendCall.sdmmcWrite lba (size / sector_size)])

/-- The `sector_count` entry of the capability table bound at init. -/
def StorageEnv.sector_count : StorageEnv → Nat
  | StorageEnv.spiflash fe => get_sector_count_spiflash fe
  | StorageEnv.sdmmc se => get_sector_count_sdmmc se

/-- The `sector_size` entry of the capability table bound at init. -/
def StorageEnv.sector_size : StorageEnv → Nat
  | StorageEnv.spiflash fe => get_sector_size_spiflash fe
  | StorageEnv.sdmmc se => get_sector_size_sdmmc se

/-- The `read` entry of the capability table bound at init. -/
def StorageEnv.read (env : StorageEnv) (sector_size lba offset size : Nat) :
    EspErr × List BackendCall :=
  match env with
  | StorageEnv.spiflash fe => read_sector_spiflash fe sector_size lba offset size
  | StorageEnv.sdmmc se => read_sector_sdmmc se sector_size lba offset size

/-- The `write` entry of the capability table bound at init. -/
def StorageEnv.write (env : StorageEnv)
    (sector_size addr lba offset size : Nat) : EspErr × List BackendCall :=
  match env with
  | StorageEnv.spiflash fe =>
      write_sector_spiflash fe sector_size addr lba offset size
  | StorageEnv.sdmmc se => write_sector_sdmmc se sector_size addr lba offset size

/-- Embeds `tinyusb_msc_storage_get_sector_count`. -/
def tinyusb_msc_storage_get_sector_count (env : StorageEnv) : Nat :=
  env.sector_count

/-- Embeds `tinyusb_msc_storage_get_sector_size`. -/
def tinyusb_msc_storage_get_sector_size (env : StorageEnv) : Nat :=
  env.sector_size

/-- Embeds `msc_storage_read_sector`: fetches the active sector size and
forwards to the bound `read` capability; no address math or check is
done here. -/
def msc_storage_read_sector (env : StorageEnv) (lba offset size : Nat) :
    EspErr × List BackendCall :=
  env.read (tinyusb_msc_storage_get_sector_size env) lba offset size

/-- Embeds `msc_storage_write_sector`: checked `lba * sector_size`, then
checked `+ offset` (overflow gives `ESP_ERR_INVALID_SIZE`), then the
alignment check of `addr` and `size` against `sector_size` (violation
gives `ESP_ERR_INVALID_ARG`); only then the bound `write` capability is
invoked. -/
def msc_storage_write_sector (env : StorageEnv) (lba offset size : Nat) :
    EspErr × List BackendCall :=
  let sector_size := tinyusb_msc_storage_get_sector_size env
  if U32_MOD ≤ lba * sector_size then (EspErr.invalidSize, [])
  else if U32_MOD ≤ lba * sector_size + offset then (EspErr.invalidSize, [])
  else
    let addr := lba * sector_size + offset
    if addr % sector_size ≠ 0 ∨ size % sector_size ≠ 0 then
      (EspErr.invalidArg, [])
    else env.write sector_size addr lba offset size

/-- Embeds `tud_msc_capacity_cb`: block count is the sector count
verbatim, block size is the sector size cast to `uint16_t`. -/
def tud_msc_capacity_cb (env : StorageEnv) : Nat × Nat :=
  (tinyusb_msc_storage_get_sector_count env,
   tinyusb_msc_storage_get_sector_size env % U16_MOD)

/-- Embeds `tud_msc_read10_cb`: a non-`ESP_OK` storage result yields 0,
success yields `bufsize` (through the `int32_t` return type). -/
def tud_msc_read10_cb (env : StorageEnv) (lba offset bufsize : Nat) : Int :=
  if (msc_storage_read_sector env lba offset bufsize).1 ≠ EspErr.ok then 0
  else toInt32 bufsize

/-- Embeds `tud_msc_write10_cb`: a non-`ESP_OK` storage result yields 0,
success yields `bufsize` (through the `int32_t` return type). -/
def tud_msc_write10_cb (env : StorageEnv) (lba offset bufsize : Nat) : Int :=
  if (msc_storage_write_sector env lba offset bufsize).1 ≠ EspErr.ok then 0
  else toInt32 bufsize

/-- SCSI opcode `SCSI_CMD_PREVENT_ALLOW_MEDIUM_REMOVAL` (1Eh). -/
def SCSI_CMD_PREVENT_ALLOW_MEDIUM_REMOVAL : Nat := 0x1E

/-- SCSI sense key `SCSI_SENSE_ILLEGAL_REQUEST` (05h). -/
def SCSI_SENSE_ILLEGAL_REQUEST : Nat := 0x05

/-- ASC code for INVALID COMMAND OPERATION CODE, from the source's
`SCSI_CODE_ASC_INVALID_COMMAND_OPERATION_CODE`. -/
def SCSI_CODE_ASC_INVALID_COMMAND_OPERATION_CODE : Nat := 0x20

/-- ASCQ code from the source's `SCSI_CODE_ASCQ`. -/
def SCSI_CODE_ASCQ : Nat := 0x00

/-- Embeds `tud_msc_scsi_cb` on the command opcode `scsi_cmd[0]`: the
returned `int32_t` paired with the sense triple passed to
`tud_msc_set_sense`, or `none` when no sense condition is set. -/
def tud_msc_scsi_cb (scsi_cmd0 : Nat) : Int × Option (Nat × Nat × Nat) :=
  if scsi_cmd0 = SCSI_CMD_PREVENT_ALLOW_MEDIUM_REMOVAL then (0, none)
  else (-1, some (SCSI_SENSE_ILLEGAL_REQUEST,
                  SCSI_CODE_ASC_INVALID_COMMAND_OPERATION_CODE,
                  SCSI_CODE_ASCQ))

/-- The `tinyusb_msc_event_type_t` argument: the two declared enum
values plus any other integer reaching the `default` branch. -/
inductive TinyusbMscEventType where
  | mount_changed
  | premount_changed
  | other (n : Nat)
deriving DecidableEq, Repr

/-- The two callback fields of the storage handle; a callback pointer is
modelled as `Option Nat` with `none` for NULL. -/
structure CallbackState where
  callback_mount_changed : Option Nat
  callback_premount_changed : Option Nat
deriving DecidableEq, Repr

/-- Embeds `tinyusb_msc_register_callback`: sets the field selected by
the event type, or returns `ESP_ERR_INVALID_ARG` leaving the state
unchanged. -/
def tinyusb_msc_register_callback (st : CallbackState)
    (event_type : TinyusbMscEventType) (callback : Option Nat) :
    EspErr × CallbackState :=
  match event_type with
  | TinyusbMscEventType.mount_changed =>
      (EspErr.ok, { st with callback_mount_changed := callback })
  | TinyusbMscEventType.premount_changed =>
      (EspErr.ok, { st with callback_premount_changed := callback })
  | TinyusbMscEventType.other _ => (EspErr.invalidArg, st)

/-- Embeds `tinyusb_msc_unregister_callback`: clears the field selected
by the event type, or returns `ESP_ERR_INVALID_ARG` leaving the state
unchanged. -/
def tinyusb_msc_unregister_callback (st : CallbackState)
    (event_type : TinyusbMscEventType) : EspErr × CallbackState :=
  match event_type with
  | TinyusbMscEventType.mount_changed =>
      (EspErr.ok, { st with callback_mount_changed := none })
  | TinyusbMscEventType.premount_changed =>
      (EspErr.ok, { st with callback_premount_changed := none })
  | TinyusbMscEventType.other _ => (EspErr.invalidArg, st)

/-- Concrete flash environment whose collaborators always succeed, for
witnesses. -/
def flashEnvOk : FlashEnv :=
  { wl_sector_size := 512
    wl_size := 65536
    wl_read := fun _ _ => EspErr.ok
    wl_erase_range := fun _ _ => EspErr.ok
    wl_write := fun _ _ => EspErr.ok }

/-- Concrete flash environment whose erase primitive always fails, for
witnesses. -/
def flashEnvEraseFail : FlashEnv :=
  { wl_sector_size := 512
    wl_size := 65536
    wl_read := fun _ _ => EspErr.ok
    wl_erase_range := fun _ _ => EspErr.fail 261
    wl_write := fun _ _ => EspErr.ok }

/-- Concrete SD/MMC environment whose collaborators always succeed, for
witnesses and counterexamples. -/
def sdmmcEnvOk : SdmmcEnv :=
  { csd_capacity := 1024
    csd_sector_size := 512
    sdmmc_read_sectors := fun _ _ => EspErr.ok
    sdmmc_write_sectors := fun _ _ => EspErr.ok }

/-- Concrete flash environment whose wear-level layer reports a zero
sector size, for witnesses. -/
def flashEnvZero : FlashEnv :=
  { flashEnvOk with wl_sector_size := 0 }

/-- Concrete flash environment whose sector size does not fit in 16
bits, for witnesses. -/
def flashEnvWide : FlashEnv :=
  { flashEnvOk with wl_sector_size := 65536 }

/-- C1, counterexample: on the SD/MMC backend a read whose
`lba * sector_size` overflows 32 bits (`lba = 2^23`, `sector_size =
512`) is not rejected with `ESP_ERR_INVALID_SIZE`; the backend read is
invoked anyway, because `_read_sector_sdmmc` performs no overflow
check. -/
theorem spec_c1_cex :
    U32_MOD ≤ 8388608 * tinyusb_msc_storage_get_sector_size (StorageEnv.sdmmc sdmmcEnvOk)
    ∧ (msc_storage_read_sector (StorageEnv.sdmmc sdmmcEnvOk) 8388608 0 512).1
        ≠ EspErr.invalidSize
    ∧ (msc_storage_read_sector (StorageEnv.sdmmc sdmmcEnvOk) 8388608 0 512).2
        = [BackendCall.sdmmcRead 8388608 1] :=
  ⟨by decide, by decide, by decide⟩

/-- C1 (amended): for every write request on either backend, and every
read request on the flash backend, if `lba * sector_size` overflows or
the subsequent addition of `offset` overflows the unsigned 32-bit
range, the operation returns `ESP_ERR_INVALID_SIZE` and no backend
read/write/erase call occurs; SD/MMC reads perform no overflow
check. -/
theorem spec_c1 (env : StorageEnv) (lba offset size : Nat)
    (hov : U32_MOD ≤ lba * tinyusb_msc_storage_get_sector_size env + offset) :
    msc_storage_write_sector env lba offset size = (EspErr.invalidSize, [])
    ∧ (∀ fe : FlashEnv, env = StorageEnv.spiflash fe →
        msc_storage_read_sector env lba offset size = (EspErr.invalidSize, [])) := by
  constructor
  · unfold msc_storage_write_sector
    by_cases h1 : U32_MOD ≤ lba * tinyusb_msc_storage_get_sector_size env
    · simp [h1]
    · simp [h1, hov]
  · intro fe hfe
    subst hfe
    simp only [msc_storage_read_sector, StorageEnv.read, read_sector_spiflash]
    by_cases h1 :
        U32_MOD ≤ lba * tinyusb_msc_storage_get_sector_size (StorageEnv.spiflash fe)
    · simp [h1]
    · simp [h1, hov]

/-- C1 witness: a flash-backend request with `lba = 2^23`,
`sector_size = 512` overflows the multiplication, and both the write
and the read path reject it with `ESP_ERR_INVALID_SIZE` and an empty
backend-call trace. -/
theorem spec_c1_witness :
    msc_storage_write_sector (StorageEnv.spiflash flashEnvOk) 8388608 0 512
      = (EspErr.invalidSize, [])
    ∧ msc_storage_read_sector (StorageEnv.spiflash flashEnvOk) 8388608 0 512
      = (EspErr.invalidSize, []) := by
  have h := spec_c1 (StorageEnv.spiflash flashEnvOk) 8388608 0 512 (by decide)
  exact ⟨h.1, h.2 flashEnvOk rfl⟩

/-- C2: a write request whose translated address or size is not an
exact multiple of the sector size (the translation itself not
overflowing) returns `ESP_ERR_INVALID_ARG` and the backend write is
never invoked. -/
theorem spec_c2 (env : StorageEnv) (lba offset size : Nat)
    (hov : lba * tinyusb_msc_storage_get_sector_size env + offset < U32_MOD)
    (hmis : (lba * tinyusb_msc_storage_get_sector_size env + offset)
              % tinyusb_msc_storage_get_sector_size env ≠ 0
            ∨ size % tinyusb_msc_storage_get_sector_size env ≠ 0) :
    msc_storage_write_sector env lba offset size = (EspErr.invalidArg, []) := by
  have h2 : ¬ U32_MOD ≤ lba * tinyusb_msc_storage_get_sector_size env + offset :=
    Nat.not_le.mpr hov
  have h1 : ¬ U32_MOD ≤ lba * tinyusb_msc_storage_get_sector_size env :=
    Nat.not_le.mpr (Nat.lt_of_le_of_lt (Nat.le_add_right _ _) hov)
  unfold msc_storage_write_sector
  simp [h1, h2, hmis]

/-- C2 witness: flash backend, `sector_size = 512`, `lba = 0`,
`offset = 1`, `size = 512`: the translated address 1 is misaligned, the
write returns `ESP_ERR_INVALID_ARG` with no backend call. -/
theorem spec_c2_witness :
    msc_storage_write_sector (StorageEnv.spiflash flashEnvOk) 0 1 512
      = (EspErr.invalidArg, []) :=
  spec_c2 (StorageEnv.spiflash flashEnvOk) 0 1 512 (by decide) (by decide)

/-- C3: read requests are never alignment-checked: a read whose
translated address or size is not a multiple of the sector size is
passed to the backend read function unchanged (flash: `wl_read` at the
translated byte address; SD/MMC: `sdmmc_read_sectors` at `lba`). -/
theorem spec_c3 (env : StorageEnv) (lba offset size : Nat)
    (hov : lba * tinyusb_msc_storage_get_sector_size env + offset < U32_MOD)
    (hmis : (lba * tinyusb_msc_storage_get_sector_size env + offset)
              % tinyusb_msc_storage_get_sector_size env ≠ 0
            ∨ size % tinyusb_msc_storage_get_sector_size env ≠ 0) :
    (∀ fe : FlashEnv, env = StorageEnv.spiflash fe →
        msc_storage_read_sector env lba offset size
          = (fe.wl_read (lba * tinyusb_msc_storage_get_sector_size env + offset) size,
             [BackendCall.wlRead
                (lba * tinyusb_msc_storage_get_sector_size env + offset) size]))
    ∧ (∀ se : SdmmcEnv, env = StorageEnv.sdmmc se →
        msc_storage_read_sector env lba offset size
          = (se.sdmmc_read_sectors lba
               (size / tinyusb_msc_storage_get_sector_size env),
             [BackendCall.sdmmcRead lba
                (size / tinyusb_msc_storage_get_sector_size env)])) := by
  have h2 : ¬ U32_MOD ≤ lba * tinyusb_msc_storage_get_sector_size env + offset :=
    Nat.not_le.mpr hov
  have h1 : ¬ U32_MOD ≤ lba * tinyusb_msc_storage_get_sector_size env :=
    Nat.not_le.mpr (Nat.lt_of_le_of_lt (Nat.le_add_right _ _) hov)
  constructor
  · intro fe hfe
    subst hfe
    simp only [msc_storage_read_sector, StorageEnv.read, read_sector_spiflash]
    simp [h1, h2]
  · intro se hse
    subst hse
    rfl

/-- C3 witness: flash backend, `sector_size = 512`, `lba = 0`,
`offset = 1`, `size = 512`: the misaligned read reaches `wl_read` at
byte address 1 unchanged. -/
theorem spec_c3_witness :
    msc_storage_read_sector (StorageEnv.spiflash flashEnvOk) 0 1 512
      = (EspErr.ok, [BackendCall.wlRead 1 512]) :=
  ((spec_c3 (StorageEnv.spiflash flashEnvOk) 0 1 512 (by decide) (by decide)).1
      flashEnvOk rfl).trans (by decide)

/-- C4: a flash-backend write always invokes the erase of the target
byte range first; if the erase returns an error, that error is returned
and `wl_write` is never invoked, and if the erase succeeds the write
follows it. -/
theorem spec_c4 (fe : FlashEnv) (sector_size addr lba offset size : Nat) :
    (write_sector_spiflash fe sector_size addr lba offset size).2.head?
        = some (BackendCall.wlEraseRange addr size)
    ∧ (fe.wl_erase_range addr size ≠ EspErr.ok →
        write_sector_spiflash fe sector_size addr lba offset size
          = (fe.wl_erase_range addr size, [BackendCall.wlEraseRange addr size]))
    ∧ (fe.wl_erase_range addr size = EspErr.ok →
        write_sector_spiflash fe sector_size addr lba offset size
          = (fe.wl_write addr size,
             [BackendCall.wlEraseRange addr size,
              BackendCall.wlWrite addr size])) := by
  unfold write_sector_spiflash
  cases h : fe.wl_erase_range addr size <;> simp [h]

/-- C4 witness: with an erase primitive that fails with code 261, the
flash write at byte address 1024 returns that error and its trace holds
the erase call only — `wl_write` never ran. -/
theorem spec_c4_witness :
    write_sector_spiflash flashEnvEraseFail 512 1024 2 0 512
      = (EspErr.fail 261, [BackendCall.wlEraseRange 1024 512]) :=
  ((spec_c4 flashEnvEraseFail 512 1024 2 0 512).2.1 (by decide)).trans (by decide)

/-- Helper: the `int32_t` interpretation of a value below `2 ^ 31` is
the value itself. -/
theorem toInt32_eq_of_lt (n : Nat) (h : n < INT32_HALF) : toInt32 n = (n : Int) := by
  have hn : n % U32_MOD = n :=
    Nat.mod_eq_of_lt (lt_trans h (by norm_num [INT32_HALF, U32_MOD]))
  unfold toInt32
  rw [hn, if_pos h]

/-- C5: the READ10 and WRITE10 callbacks return 0 when the underlying
storage operation returns any non-`ESP_OK` error, and exactly `bufsize`
when it succeeds (for `bufsize` representable in `int32_t`). -/
theorem spec_c5 (env : StorageEnv) (lba offset bufsize : Nat)
    (hbuf : bufsize < INT32_HALF) :
    ((msc_storage_read_sector env lba offset bufsize).1 = EspErr.ok →
        tud_msc_read10_cb env lba offset bufsize = (bufsize : Int))
    ∧ ((msc_storage_read_sector env lba offset bufsize).1 ≠ EspErr.ok →
        tud_msc_read10_cb env lba offset bufsize = 0)
    ∧ ((msc_storage_write_sector env lba offset bufsize).1 = EspErr.ok →
        tud_msc_write10_cb env lba offset bufsize = (bufsize : Int))
    ∧ ((msc_storage_write_sector env lba offset bufsize).1 ≠ EspErr.ok →
        tud_msc_write10_cb env lba offset bufsize = 0) := by
  refine ⟨?_, ?_, ?_, ?_⟩ <;> intro h <;>
    simp [tud_msc_read10_cb, tud_msc_write10_cb, h, toInt32_eq_of_lt bufsize hbuf]

/-- C5 witness: an aligned 512-byte request at `lba = 0` on the
always-succeeding flash backend makes both callbacks return 512, and on
the erase-failing backend the WRITE10 callback returns 0. -/
theorem spec_c5_witness :
    tud_msc_read10_cb (StorageEnv.spiflash flashEnvOk) 0 0 512 = (512 : Int)
    ∧ tud_msc_write10_cb (StorageEnv.spiflash flashEnvOk) 0 0 512 = (512 : Int)
    ∧ tud_msc_write10_cb (StorageEnv.spiflash flashEnvEraseFail) 0 0 512 = 0 := by
  have h := spec_c5 (StorageEnv.spiflash flashEnvOk) 0 0 512 (by decide)
  have h' := spec_c5 (StorageEnv.spiflash flashEnvEraseFail) 0 0 512 (by decide)
  exact ⟨h.1 (by decide), h.2.2.1 (by decide), h'.2.2.2 (by decide)⟩

/-- C6: the SD/MMC backend read and write ignore the intra-sector
offset (and for writes also the precomputed byte address): the card is
asked for exactly `size / sector_size` sectors starting at `lba`,
whatever the offset or address arguments are. -/
theorem spec_c6 (se : SdmmcEnv)
    (sector_size addr addr2 lba offset offset2 size : Nat) :
    read_sector_sdmmc se sector_size lba offset size
      = (se.sdmmc_read_sectors lba (size / sector_size),
         [BackendCall.sdmmcRead lba (size / sector_size)])
    ∧ read_sector_sdmmc se sector_size lba offset size
        = read_sector_sdmmc se sector_size lba offset2 size
    ∧ write_sector_sdmmc se sector_size addr lba offset size
        = (se.sdmmc_write_sectors lba (size / sector_size),
           [BackendCall.sdmmcWrite lba (size / sector_size)])
    ∧ write_sector_sdmmc se sector_size addr lba offset size
        = write_sector_sdmmc se sector_size addr2 lba offset2 size :=
  ⟨rfl, rfl, rfl, rfl⟩

/-- C7: callback registration and unregistration with an unrecognized
event kind return `ESP_ERR_INVALID_ARG` and leave the handle state
unchanged; with a recognized kind they return `ESP_OK` and set or clear
only the corresponding callback field. -/
theorem spec_c7 (st : CallbackState) (cb : Option Nat) (n : Nat) :
    tinyusb_msc_register_callback st (TinyusbMscEventType.other n) cb
        = (EspErr.invalidArg, st)
    ∧ tinyusb_msc_unregister_callback st (TinyusbMscEventType.other n)
        = (EspErr.invalidArg, st)
    ∧ tinyusb_msc_register_callback st TinyusbMscEventType.mount_changed cb
        = (EspErr.ok, { st with callback_mount_changed := cb })
    ∧ tinyusb_msc_register_callback st TinyusbMscEventType.premount_changed cb
        = (EspErr.ok, { st with callback_premount_changed := cb })
    ∧ tinyusb_msc_unregister_callback st TinyusbMscEventType.mount_changed
        = (EspErr.ok, { st with callback_mount_changed := none })
    ∧ tinyusb_msc_unregister_callback st TinyusbMscEventType.premount_changed
        = (EspErr.ok, { st with callback_premount_changed := none }) :=
  ⟨rfl, rfl, rfl, rfl, rfl, rfl⟩

/-- C8: the capacity callback reports the backend sector count verbatim
as the block count, and the backend sector size reduced modulo `2 ^ 16`
as the 16-bit block size. -/
theorem spec_c8 (fe : FlashEnv) (se : SdmmcEnv)
    (hfe : fe.wl_sector_size < U32_MOD) (hse : se.csd_sector_size < U32_MOD) :
    tud_msc_capacity_cb (StorageEnv.spiflash fe)
      = (get_sector_count_spiflash fe, fe.wl_sector_size % U16_MOD)
    ∧ tud_msc_capacity_cb (StorageEnv.sdmmc se)
      = (get_sector_count_sdmmc se, se.csd_sector_size % U16_MOD) := by
  unfold tud_msc_capacity_cb tinyusb_msc_storage_get_sector_count
    tinyusb_msc_storage_get_sector_size StorageEnv.sector_count
    StorageEnv.sector_size get_sector_size_spiflash get_sector_size_sdmmc
  dsimp only
  rw [Nat.mod_eq_of_lt hfe, Nat.mod_eq_of_lt hse]
  exact ⟨rfl, rfl⟩

/-- C8 witness: a flash sector size of 65536 is silently reported as
block size 0 (truncated to 16 bits), while the SD/MMC sector size 512
is reported verbatim. -/
theorem spec_c8_witness :
    tud_msc_capacity_cb (StorageEnv.spiflash flashEnvWide)
      = (get_sector_count_spiflash flashEnvWide, 0)
    ∧ tud_msc_capacity_cb (StorageEnv.sdmmc sdmmcEnvOk)
      = (get_sector_count_sdmmc sdmmcEnvOk, 512) := by
  have h := spec_c8 flashEnvWide sdmmcEnvOk (by decide) (by decide)
  exact ⟨h.1.trans (by decide), h.2.trans (by decide)⟩

/-- C9: the flash-backend sector count is 0 when the wear-level layer
reports a zero sector size (no division is attempted), and otherwise is
`wl_size / sector_size` rounded down. -/
theorem spec_c9 (fe : FlashEnv) :
    (fe.wl_sector_size = 0 → get_sector_count_spiflash fe = 0)
    ∧ (fe.wl_sector_size ≠ 0 → fe.wl_size < U32_MOD →
        get_sector_count_spiflash fe = fe.wl_size / fe.wl_sector_size) := by
  constructor
  · intro h
    simp [get_sector_count_spiflash, h]
  · intro h hlt
    have hdiv : fe.wl_size / fe.wl_sector_size < U32_MOD :=
      Nat.lt_of_le_of_lt (Nat.div_le_self _ _) hlt
    simp [get_sector_count_spiflash, h, Nat.mod_eq_of_lt hdiv]

/-- C9 witness: a zero wear-level sector size yields sector count 0,
and sector size 512 with volume size 65536 yields 128 sectors. -/
theorem spec_c9_witness :
    get_sector_count_spiflash flashEnvZero = 0
    ∧ get_sector_count_spiflash flashEnvOk = 128 := by
  refine ⟨(spec_c9 flashEnvZero).1 (by decide), ?_⟩
  exact ((spec_c9 flashEnvOk).2 (by decide) (by decide)).trans (by decide)

/-- C10: the generic SCSI callback accepts the prevent/allow medium
removal opcode (1Eh) as a no-op returning 0 with no sense condition;
every other opcode sets the illegal-request / invalid-command-operation
sense condition and returns a negative value. -/
theorem spec_c10 (cmd0 : Nat) :
    (cmd0 = SCSI_CMD_PREVENT_ALLOW_MEDIUM_REMOVAL →
        tud_msc_scsi_cb cmd0 = (0, none))
    ∧ (cmd0 ≠ SCSI_CMD_PREVENT_ALLOW_MEDIUM_REMOVAL →
        (tud_msc_scsi_cb cmd0).1 < 0
        ∧ (tud_msc_scsi_cb cmd0).2
            = some (SCSI_SENSE_ILLEGAL_REQUEST,
                    SCSI_CODE_ASC_INVALID_COMMAND_OPERATION_CODE,
                    SCSI_CODE_ASCQ)) := by
  constructor
  · intro h
    simp [tud_msc_scsi_cb, h]
  · intro h
    unfold tud_msc_scsi_cb
    rw [if_neg h]
    exact ⟨by norm_num, rfl⟩

/-- C10 witness: opcode 1Eh is a no-op returning 0; the unsupported
opcode 0 returns a negative value with the illegal-request (05h) /
invalid-command-operation-code (20h, ASCQ 00h) sense triple. -/
theorem spec_c10_witness :
    tud_msc_scsi_cb 0x1E = (0, none)
    ∧ (tud_msc_scsi_cb 0).1 < 0
    ∧ (tud_msc_scsi_cb 0).2 = some (0x05, 0x20, 0x00) := by
  refine ⟨(spec_c10 0x1E).1 (by decide), ((spec_c10 0).2 (by decide)).1, ?_⟩
  exact ((spec_c10 0).2 (by decide)).2.trans (by decide)

end TusbMscStorage
